import Mathlib

/- Verification of the persistent-kernel execution core and the RPC session
client of the agent worker. The definitions below are shallow embeddings of
the functions in worker/core/kernel_exec.py and worker/core/pi_rpc.py:
effectful calls to the outside world (file system, process table, message
channel, subprocess pipes) are passed in as explicit environment values, and
raised exceptions are modelled with the Except monad. -/

namespace KernelExec

/-- Python whitespace as stripped by str.strip and str.rstrip: space, tab,
newline, carriage return, vertical tab, form feed. -/
def isPySpace (c : Char) : Bool :=
  c = ' ' || c = '\t' || c = '\n' || c = '\r' || c = '\x0b' || c = '\x0c'

/-- Model of str.rstrip with no argument: remove trailing whitespace. -/
def rstrip (s : String) : String :=
  String.mk ((s.data.reverse.dropWhile isPySpace).reverse)

/-- Model of the empty-separator join used for stdout_parts. -/
def joinAll : List String → String
  | [] => ""
  | s :: rest => s ++ joinAll rest

/-- Model of sep.join over a list of strings. -/
def joinWith (sep : String) : List String → String
  | [] => ""
  | [s] => s
  | s :: rest => s ++ sep ++ joinWith sep rest

/-- Strip leading and trailing Python whitespace from a character list. -/
def pyStripChars (cs : List Char) : List Char :=
  ((cs.dropWhile isPySpace).reverse.dropWhile isPySpace).reverse

/-- Accumulate the value of a run of decimal digits; none on the first
character that is not a digit. -/
def digitsVal (acc : Nat) : List Char → Option Nat
  | [] => some acc
  | c :: rest =>
    if c.isDigit then digitsVal (acc * 10 + (c.toNat - '0'.toNat)) rest
    else none

/-- Value of a nonempty all-digit character list; none otherwise. -/
def digitsNat : List Char → Option Nat
  | [] => none
  | cs => digitsVal 0 cs

/-- Model of the int conversion applied to the pid file content: strip
whitespace, accept an optional sign followed by decimal digits; none models
a raised ValueError. (The file is written by start_kernel as a plain decimal
process id, so digit grouping underscores and non-ascii digits accepted by
the int builtin are not modelled.) -/
def pyInt (s : String) : Option Int :=
  match pyStripChars s.data with
  | '-' :: rest => (digitsNat rest).map fun n => -(n : Int)
  | '+' :: rest => (digitsNat rest).map fun n => (n : Int)
  | cs => (digitsNat cs).map fun n => (n : Int)

/-- Characters matched by the bracketed class of the ANSI_ESCAPE pattern:
decimal digits and semicolons. -/
def ansiBodyChar (c : Char) : Bool :=
  c.isDigit || c = ';'

/-- Length of the rest of one ANSI_ESCAPE match after the escape character
and the opening bracket: a run of digits and semicolons terminated by the
letter m; the count includes the terminating m, and none means the pattern
does not match at this position. -/
def ansiSkipLen : List Char → Option Nat
  | [] => none
  | c :: rest =>
    if c = 'm' then some 1
    else if ansiBodyChar c then (ansiSkipLen rest).map (· + 1)
    else none

/-- Delete every occurrence of the ANSI_ESCAPE pattern (escape, opening
bracket, digits or semicolons, m) from a character list, scanning left to
right as re.sub does: where the pattern matches, the matched characters are
dropped and scanning resumes after them; elsewhere the character is kept.
The first argument is recursion fuel; every step consumes at least one
input character, so fuel equal to the input length (as supplied by
ansiStripList below) always suffices and the zero-fuel branch is never
reached on such calls. -/
def ansiStripGo : Nat → List Char → List Char
  | 0, cs => cs
  | _ + 1, [] => []
  | fuel + 1, '\x1b' :: '[' :: rest2 =>
    match ansiSkipLen rest2 with
    | some n => ansiStripGo fuel (rest2.drop n)
    | none => '\x1b' :: ansiStripGo fuel ('[' :: rest2)
  | fuel + 1, c :: rest => c :: ansiStripGo fuel rest

/-- The scan of ansiStripGo started with enough fuel for the whole input. -/
def ansiStripList (cs : List Char) : List Char :=
  ansiStripGo cs.length cs

/-- Model of ANSI_ESCAPE.sub with the empty replacement on a string. -/
def ansiSub (s : String) : String :=
  String.mk (ansiStripList s.data)

/-- The cleaned traceback text built in execute_code: the traceback lines
joined with newlines, then ANSI escape sequences removed. -/
def cleanTraceback (tb : List String) : String :=
  ansiSub (joinWith "\n" tb)

/-- Python truthiness of the local variable error, which is either None or a
string: truthy exactly for a non-empty string. -/
def pyTruthy : Option String → Bool
  | none => false
  | some s => s != ""

/-- Content of the shell reply to an execute request: the status string and
the traceback list (content.get of traceback with default empty list). -/
structure ShellReply where
  status : String
  traceback : List String
deriving DecidableEq

/-- Content of one iopub message, split by the msg_type dispatch in
execute_code; other covers every message type the loop does not inspect. -/
inductive IopubContent where
  | stream (name : String) (text : String)
  | executeResult (textPlain : Option String)
  | errorMsg (traceback : List String)
  | statusMsg (executionState : String)
  | other
deriving DecidableEq

/-- One iopub message: the msg_id of the parent header (none when the header
carries no msg_id) and the content. -/
structure IopubMsg where
  parentId : Option String
  content : IopubContent
deriving DecidableEq

/-- Whether a message content is an error message. -/
def isErrorMsg : IopubContent → Bool
  | .errorMsg _ => true
  | _ => false

/-- The cleaned traceback an error message contributes; none for the other
message kinds. -/
def errClean : IopubContent → Option String
  | .errorMsg tb => some (cleanTraceback tb)
  | _ => none

/-- Environment of one execute_code call: the outcome of get_shell_msg (an
error value models a raised exception, such as the thirty-second timeout),
and the iopub messages read in order; the end of the list models the
five-second timeout or stream closure, which the loop treats as an implicit
terminal condition. -/
structure ExecEnv where
  shellReply : Except String ShellReply
  iopub : List IopubMsg

/-- The result record built by execute_code and run. -/
structure ExecResult where
  output : Option String
  error : Option String
deriving DecidableEq

/-- The iopub drain loop of execute_code: processes the listed messages in
order, skipping any whose parent identifier differs from the target;
collects stdout stream text in arrival order, the latest execute_result
value (text/plain with default empty), and the latest cleaned error
traceback; stops at a status message for the target whose execution state is
idle, or at the end of the list. Returns the stdout parts, result value and
error in that order. -/
def drainLoop (msgId : String) :
    List IopubMsg → List String → Option String → Option String →
    List String × Option String × Option String
  | [], outs, res, err => (outs, res, err)
  | m :: rest, outs, res, err =>
    if m.parentId = some msgId then
      match m.content with
      | .stream name text =>
        if name = "stdout" then drainLoop msgId rest (outs ++ [text]) res err
        else drainLoop msgId rest outs res err
      | .executeResult tp => drainLoop msgId rest outs (some (tp.getD "")) err
      | .errorMsg tb => drainLoop msgId rest outs res (some (cleanTraceback tb))
      | .statusMsg st =>
        if st = "idle" then (outs, res, err)
        else drainLoop msgId rest outs res err
      | .other => drainLoop msgId rest outs res err
    else drainLoop msgId rest outs res err

/-- The error recorded from the shell reply before the drain: the cleaned
joined traceback when the reply status is error, otherwise none. -/
def shellErr (reply : ShellReply) : Option String :=
  if reply.status = "error" then some (cleanTraceback reply.traceback) else none

/-- The parts list built after the drain when no truthy error was recorded:
the right-stripped concatenated stdout text when any stdout part was
collected, followed by a truthy result value. -/
def buildParts (outs : List String) (res : Option String) : List String :=
  (if outs.isEmpty then [] else [rstrip (joinAll outs)]) ++
    (match res with
     | some v => if v = "" then [] else [v]
     | none => [])

/-- The output string of the success branch: the parts joined with a
newline, or the placeholder text when the parts list is empty. -/
def buildOutput (outs : List String) (res : Option String) : String :=
  if (buildParts outs res).isEmpty then "(no output)" else joinWith "\n" (buildParts outs res)

/-- execute_code: read the shell reply (propagating its exception), record a
cleaned error when its status is error, drain the iopub messages for this
execution, and build the result record. A truthy error suppresses all
output; otherwise the output string is built from the collected stdout parts
and result value. -/
def execute_code (msgId : String) (env : ExecEnv) : Except String ExecResult := do
  let reply ← env.shellReply
  let s := drainLoop msgId env.iopub [] none (shellErr reply)
  if pyTruthy s.2.2 then
    pure { output := none, error := s.2.2 }
  else
    pure { output := some (buildOutput s.1 s.2.1), error := none }

/-- The persisted artifacts of the supervisor: the content of the pid file
and of the connection file, none when the file is absent. -/
structure Store where
  pidFile : Option String
  connectionFile : Option String
deriving DecidableEq

/-- is_kernel_alive: false when the pid file is absent; otherwise parse the
pid from the file content (a parse failure raises a ValueError) and probe
the process with the platform primitive, passed in as the oracle alive,
which itself never raises. -/
def is_kernel_alive (alive : Int → Bool) (st : Store) : Except String Bool :=
  match st.pidFile with
  | none => .ok false
  | some content =>
    match pyInt content with
    | none => .error "invalid literal for int() with base 10"
    | some pid => .ok (alive pid)

/-- stop_kernel: return at once when the pid file is absent, touching
nothing; otherwise parse the pid (a parse failure raises), send the
termination signal (the platform primitive never raises) and remove both
artifact files. -/
def stop_kernel (st : Store) : Except String Store :=
  match st.pidFile with
  | none => .ok st
  | some content =>
    match pyInt content with
    | none => .error "invalid literal for int() with base 10"
    | some _pid => .ok { pidFile := none, connectionFile := none }

/-- Outcome of one polling attempt in start_kernel: the connection file is
still absent; or it exists but a step of the handshake raised (client setup,
wait_for_ready, the startup execute, its shell reply); or the client became
ready, with the startup message fully drained. -/
inductive Attempt where
  | noFile
  | fileButFail
  | ready
deriving DecidableEq

/-- The readiness polling loop of start_kernel: up to fuel attempts starting
at attempt index i, a tenth of a second apart, returning on the first ready
attempt and raising the startup timeout error when the bound is exhausted. -/
def startPoll (env : Nat → Attempt) (i : Nat) : Nat → Except String Unit
  | 0 => .error "Kernel failed to start within 5 seconds"
  | fuel + 1 =>
    match env i with
    | .ready => .ok ()
    | _ => startPoll env (i + 1) fuel

/-- start_kernel after clearing stale artifact files, spawning the detached
backend and persisting its pid: fifty polling attempts for readiness. -/
def start_kernel (env : Nat → Attempt) : Except String Unit :=
  startPoll env 0 50

/-- A payload submitted to the backend by run: the directory-change payload
built from the cwd override, or the payload given by the caller. -/
inductive Payload where
  | chdir (dir : String)
  | user (code : String)
deriving DecidableEq

/-- One execute_code call site inside run: the message identifier the
submission receives and the messages observed for it. -/
structure ExecCall where
  msgId : String
  env : ExecEnv

/-- Environment of one run call: outcomes of the external steps in source
order: the liveness probe, the connection file existence check, the
connect_to_kernel attempt, the stop_kernel and start_kernel calls of the
self-heal or fresh-start paths, then the two execute_code call sites. -/
structure RunEnv where
  aliveResult : Except String Bool
  connectionFileExists : Bool
  connectResult : Except String Unit
  stopResult : Except String Unit
  startResult : Except String Unit
  cwdCall : ExecCall
  mainCall : ExecCall

/-- The kernel acquisition phase of run: reuse the kernel when it is alive
and the connection file exists, self-heal (stop then start) when the connect
attempt fails, and otherwise start fresh; every raised exception
propagates. -/
def ensureKernel (env : RunEnv) : Except String Unit := do
  let alive ← env.aliveResult
  if alive && env.connectionFileExists then
    match env.connectResult with
    | .ok _ => pure ()
    | .error _ => do
      let _ ← env.stopResult
      env.startResult
  else
    env.startResult

/-- The tail of run: submit the main payload and return its record together
with the submitted payload list; an exception from the main execute_code is
converted by the outer handler of run into a record with null output. -/
def runMain (code : String) (env : RunEnv) (pre : List Payload) :
    ExecResult × List Payload :=
  match execute_code env.mainCall.msgId env.mainCall.env with
  | .error e => ({ output := none, error := some e }, pre ++ [.user code])
  | .ok r => (r, pre ++ [.user code])

/-- run: ensure the kernel is up; when a truthy cwd override is given,
submit the directory-change payload first and discard its result record;
then submit the main payload and return its record. Any exception raised
anywhere inside is caught at this boundary and converted to a record with
null output and the message as the error. The second component lists the
payloads submitted to the kernel, in order. (The final stop_channels call
releases the channel and produces no data.) -/
def run (code : String) (cwd : Option String) (env : RunEnv) :
    ExecResult × List Payload :=
  match ensureKernel env with
  | .error e => ({ output := none, error := some e }, [])
  | .ok _ =>
    match cwd with
    | none => runMain code env []
    | some d =>
      if d = "" then runMain code env []
      else
        match execute_code env.cwdCall.msgId env.cwdCall.env with
        | .error e => ({ output := none, error := some e }, [.chdir d])
        | .ok _ => runMain code env [.chdir d]

end KernelExec

namespace PiRPC

/-- One parsed line from the subprocess stdout: the type and id fields as
read with dictionary get, none when the key is absent. -/
structure RpcEvent where
  type : Option String
  id : Option String
deriving DecidableEq

/-- The wait loop of the method send_and_wait: read lines until one is a
response addressed to the awaited identifier, discarding every other line;
returns the matched event (none when the stream closes first) together with
the part of the stream not yet consumed. -/
def waitLoop (reqId : String) : List RpcEvent → Option RpcEvent × List RpcEvent
  | [] => (none, [])
  | e :: rest =>
    if e.type = some "response" && e.id = some reqId then (some e, rest)
    else waitLoop reqId rest

/-- Session state visible to send_and_wait: the request counter and the not
yet consumed stdout lines of the subprocess. -/
structure RpcState where
  requestId : Nat
  stdoutLines : List RpcEvent
deriving DecidableEq

/-- send_and_wait: the send step increments the counter and stamps the
request with its decimal string; the wait step scans the stream for the
response carrying exactly that identifier. Returns the matched response (or
none when the stream closed) and the state after the call. -/
def send_and_wait (s : RpcState) : Option RpcEvent × RpcState :=
  let rid := s.requestId + 1
  let w := waitLoop (toString rid) s.stdoutLines
  (w.1, { requestId := rid, stdoutLines := w.2 })

/-- The log sink of a session: whether the underlying file object has been
closed and the event names written so far. -/
structure LogFile where
  closed : Bool
  entries : List String
deriving DecidableEq

/-- The agent subprocess as the method close observes it: whether stdin is
already closing, the return code (none while still running), and how many
terminate and kill signals have been sent. -/
structure Subproc where
  stdinClosing : Bool
  returncode : Option Int
  terminateCount : Nat
  killCount : Nat
deriving DecidableEq

/-- The session fields the method close touches: the optional log file
object (still present, though closed, after a first close) and the optional
subprocess. -/
structure SessionState where
  logFile : Option LogFile
  proc : Option Subproc
deriving DecidableEq

/-- Environment for one close call: the exit code when the terminated
process exits within the three-second grace period, none when that wait
times out; and the exit code observed after the forced kill. -/
structure CloseEnv where
  graceExit : Option Int
  killExit : Int
deriving DecidableEq

/-- Writing one entry through the logging helper: raises the closed-file
ValueError when the underlying file object has already been closed. -/
def logWrite (lf : LogFile) (entry : String) : Except String LogFile :=
  if lf.closed then .error "I/O operation on closed file"
  else .ok { lf with entries := lf.entries ++ [entry] }

/-- The log block of close: when a log file object is present, write the
session-end entry through the logging helper (raising when the object is
already closed) and close the object, which stays referenced by the
session. -/
def closeLog : Option LogFile → Except String (Option LogFile)
  | none => pure none
  | some lf => do
    let lf3 ← logWrite lf "SESSION_END"
    pure (some { lf3 with closed := true })

/-- The subprocess block of close, which never raises: close stdin unless it
is already closing; when the process is still running send the termination
signal and wait within the grace period, and on timeout kill it and wait
again; a process that already exited is left alone. -/
def closeProc (cenv : CloseEnv) : Option Subproc → Option Subproc
  | none => none
  | some p =>
    let p2 := if p.stdinClosing then p else { p with stdinClosing := true }
    match p2.returncode with
    | some _ => some p2
    | none =>
      let p3 := { p2 with terminateCount := p2.terminateCount + 1 }
      match cenv.graceExit with
      | some rc => some { p3 with returncode := some rc }
      | none =>
        some { p3 with killCount := p3.killCount + 1,
                       returncode := some cenv.killExit }

/-- close: run the log block, then the subprocess block, in source order. -/
def close (cenv : CloseEnv) (s : SessionState) : Except String SessionState := do
  let lf2 ← closeLog s.logFile
  pure { logFile := lf2, proc := closeProc cenv s.proc }

end PiRPC

namespace KernelExec

/-- Truthiness inversion: a truthy error value is a non-empty string. -/
theorem pyTruthy_eq_true {o : Option String} (h : pyTruthy o = true) :
    ∃ t, o = some t ∧ t ≠ "" := by
  cases o with
  | none => simp [pyTruthy] at h
  | some t =>
    refine ⟨t, rfl, ?_⟩
    simpa [pyTruthy] using h

/-- Unfolding of execute_code when the shell read raises. -/
theorem execute_code_err_eq (msgId : String) (e : String) (msgs : List IopubMsg) :
    execute_code msgId ⟨.error e, msgs⟩ = .error e := rfl

/-- Unfolding of execute_code when the shell reply arrives. -/
theorem execute_code_ok_eq (msgId : String) (reply : ShellReply) (msgs : List IopubMsg) :
    execute_code msgId ⟨.ok reply, msgs⟩ =
      (if pyTruthy (drainLoop msgId msgs [] none (shellErr reply)).2.2 then
        .ok ⟨none, (drainLoop msgId msgs [] none (shellErr reply)).2.2⟩
      else
        .ok ⟨some (buildOutput (drainLoop msgId msgs [] none (shellErr reply)).1
                     (drainLoop msgId msgs [] none (shellErr reply)).2.1), none⟩) := rfl

/-- Every record execute_code returns has exactly one field set: a non-null
output with null error, or a null output with non-null error. -/
theorem execute_code_ok_shape (msgId : String) (env : ExecEnv) (r : ExecResult)
    (h : execute_code msgId env = .ok r) :
    (∃ s, r = ⟨some s, none⟩) ∨ ∃ s, r = ⟨none, some s⟩ := by
  obtain ⟨sr, msgs⟩ := env
  cases sr with
  | error e => rw [execute_code_err_eq] at h; cases h
  | ok reply =>
    rw [execute_code_ok_eq] at h
    by_cases ht : pyTruthy (drainLoop msgId msgs [] none (shellErr reply)).2.2
    · obtain ⟨t, hts, -⟩ := pyTruthy_eq_true ht
      rw [if_pos ht] at h
      cases h
      exact Or.inr ⟨t, by rw [hts]⟩
    · rw [if_neg ht] at h
      cases h
      exact Or.inl ⟨_, rfl⟩

/-- The drain loop never looks at a message whose parent identifier differs
from the target: its result equals the result on the filtered stream. -/
theorem drainLoop_filter (msgId : String) (msgs : List IopubMsg) :
    ∀ outs res err,
      drainLoop msgId msgs outs res err =
        drainLoop msgId (msgs.filter fun m => decide (m.parentId = some msgId))
          outs res err := by
  induction msgs with
  | nil => intro outs res err; rfl
  | cons m rest ih =>
    intro outs res err
    obtain ⟨pid, content⟩ := m
    by_cases hp : pid = some msgId
    · cases content with
      | stream name text =>
        by_cases hn : name = "stdout" <;>
          simp [drainLoop, List.filter_cons, hp, hn, ih]
      | executeResult tp => simp [drainLoop, List.filter_cons, hp, ih]
      | errorMsg tb => simp [drainLoop, List.filter_cons, hp, ih]
      | statusMsg st =>
        by_cases hs : st = "idle" <;>
          simp [drainLoop, List.filter_cons, hp, hs, ih]
      | other => simp [drainLoop, List.filter_cons, hp, ih]
    · simp [drainLoop, List.filter_cons, hp, ih]

/-- A prefix containing no terminal status message for the target is
processed into some intermediate state, after which the drain continues on
the rest of the stream. -/
theorem drainLoop_append_noIdle (msgId : String) :
    ∀ (pre : List IopubMsg),
      (∀ m ∈ pre, ¬(m.parentId = some msgId ∧ m.content = IopubContent.statusMsg "idle")) →
      ∀ rest outs res err, ∃ o r e,
        drainLoop msgId (pre ++ rest) outs res err = drainLoop msgId rest o r e := by
  intro pre
  induction pre with
  | nil => exact fun _ rest outs res err => ⟨outs, res, err, rfl⟩
  | cons m pre ih =>
    intro hpre rest outs res err
    have hm := hpre m (by simp)
    have hpre2 : ∀ x ∈ pre, ¬(x.parentId = some msgId ∧ x.content = IopubContent.statusMsg "idle") :=
      fun x hx => hpre x (by simp [hx])
    obtain ⟨pid, content⟩ := m
    by_cases hp : pid = some msgId
    · cases content with
      | stream name text =>
        by_cases hn : name = "stdout"
        · simpa [drainLoop, hp, hn] using ih hpre2 rest (outs ++ [text]) res err
        · simpa [drainLoop, hp, hn] using ih hpre2 rest outs res err
      | executeResult tp =>
        simpa [drainLoop, hp] using ih hpre2 rest outs (some (tp.getD "")) err
      | errorMsg tb =>
        simpa [drainLoop, hp] using ih hpre2 rest outs res (some (cleanTraceback tb))
      | statusMsg st =>
        have hs : st ≠ "idle" := by
          intro hst
          exact hm ⟨by simpa using hp, by simp [hst]⟩
        simpa [drainLoop, hp, hs] using ih hpre2 rest outs res err
      | other =>
        simpa [drainLoop, hp] using ih hpre2 rest outs res err
    · simpa [drainLoop, hp] using ih hpre2 rest outs res err

/-- A stream without error messages for the target leaves the recorded
error unchanged. -/
theorem drainLoop_err_of_noError (msgId : String) :
    ∀ (msgs : List IopubMsg),
      (∀ m ∈ msgs, m.parentId = some msgId → isErrorMsg m.content = false) →
      ∀ outs res err, (drainLoop msgId msgs outs res err).2.2 = err := by
  intro msgs
  induction msgs with
  | nil => intro _ outs res err; rfl
  | cons m rest ih =>
    intro h outs res err
    have hm := h m (by simp)
    have h2 : ∀ x ∈ rest, x.parentId = some msgId → isErrorMsg x.content = false :=
      fun x hx => h x (by simp [hx])
    obtain ⟨pid, content⟩ := m
    by_cases hp : pid = some msgId
    · cases content with
      | stream name text =>
        by_cases hn : name = "stdout" <;> simp [drainLoop, hp, hn, ih h2]
      | executeResult tp => simp [drainLoop, hp, ih h2]
      | errorMsg tb =>
        have := hm (by simpa using hp)
        simp [isErrorMsg] at this
      | statusMsg st =>
        by_cases hs : st = "idle" <;> simp [drainLoop, hp, hs, ih h2]
      | other => simp [drainLoop, hp, ih h2]
    · simp [drainLoop, hp, ih h2]

/-- When the recorded error is not truthy and every error message for the
target carries an empty cleaned traceback, the recorded error stays not
truthy through the drain. -/
theorem drainLoop_err_untruthy (msgId : String) :
    ∀ (msgs : List IopubMsg),
      (∀ m ∈ msgs, m.parentId = some msgId → isErrorMsg m.content = true →
        errClean m.content = some "") →
      ∀ outs res err, pyTruthy err = false →
        pyTruthy (drainLoop msgId msgs outs res err).2.2 = false := by
  intro msgs
  induction msgs with
  | nil => intro _ outs res err he; exact he
  | cons m rest ih =>
    intro h outs res err he
    have hm := h m (by simp)
    have h2 : ∀ x ∈ rest, x.parentId = some msgId → isErrorMsg x.content = true →
        errClean x.content = some "" :=
      fun x hx => h x (by simp [hx])
    obtain ⟨pid, content⟩ := m
    by_cases hp : pid = some msgId
    · cases content with
      | stream name text =>
        by_cases hn : name = "stdout" <;> simp [drainLoop, hp, hn, ih h2 _ _ _ he]
      | executeResult tp => simp [drainLoop, hp, ih h2 _ _ _ he]
      | errorMsg tb =>
        have hcl := hm (by simpa using hp) (by simp [isErrorMsg])
        simp only [errClean, Option.some.injEq] at hcl
        have hnew : pyTruthy (some (cleanTraceback tb)) = false := by
          simp [pyTruthy, hcl]
        simp [drainLoop, hp, ih h2 _ _ _ hnew]
      | statusMsg st =>
        by_cases hs : st = "idle" <;> simp [drainLoop, hp, hs, ih h2 _ _ _ he, he]
      | other => simp [drainLoop, hp, ih h2 _ _ _ he]
    · simp [drainLoop, hp, ih h2 _ _ _ he]

end KernelExec

namespace KernelExec

/-- Helper for C1: the tail of run always yields a record with exactly one
non-null field. -/
theorem runMain_shape (code : String) (env : RunEnv) (pre : List Payload) :
    (∃ s, (runMain code env pre).1 = ⟨some s, none⟩) ∨
      ∃ s, (runMain code env pre).1 = ⟨none, some s⟩ := by
  unfold runMain
  cases hm : execute_code env.mainCall.msgId env.mainCall.env with
  | error e => exact Or.inr ⟨e, rfl⟩
  | ok r =>
    rcases execute_code_ok_shape _ _ _ hm with ⟨s, hs⟩ | ⟨s, hs⟩
    · exact Or.inl ⟨s, by simp [hs]⟩
    · exact Or.inr ⟨s, by simp [hs]⟩

/-- Unfolding of run when the kernel acquisition phase raises. -/
theorem run_ensure_err (code : String) (cwd : Option String) (env : RunEnv) (e : String)
    (he : ensureKernel env = .error e) :
    run code cwd env = ({ output := none, error := some e }, []) := by
  unfold run; rw [he]

/-- Unfolding of run with no cwd override once the kernel is up. -/
theorem run_none_ok (code : String) (env : RunEnv) (u : Unit)
    (he : ensureKernel env = .ok u) :
    run code none env = runMain code env [] := by
  unfold run; rw [he]

/-- Unfolding of run with a falsy (empty) cwd override once the kernel is
up: the directory change is skipped as by the truthiness test. -/
theorem run_some_empty (code d : String) (env : RunEnv) (u : Unit)
    (he : ensureKernel env = .ok u) (hd : d = "") :
    run code (some d) env = runMain code env [] := by
  unfold run; rw [he, hd]; rfl

/-- Unfolding of run with a truthy cwd override once the kernel is up. -/
theorem run_some_ok (code d : String) (env : RunEnv) (u : Unit)
    (he : ensureKernel env = .ok u) (hd : ¬ d = "") :
    run code (some d) env =
      match execute_code env.cwdCall.msgId env.cwdCall.env with
      | .error e => ({ output := none, error := some e }, [Payload.chdir d])
      | .ok _ => runMain code env [Payload.chdir d] := by
  unfold run
  rw [he]
  show (if d = "" then runMain code env []
      else
        match execute_code env.cwdCall.msgId env.cwdCall.env with
        | .error e => ({ output := none, error := some e }, [Payload.chdir d])
        | .ok _ => runMain code env [Payload.chdir d]) =
    match execute_code env.cwdCall.msgId env.cwdCall.env with
    | .error e => ({ output := none, error := some e }, [Payload.chdir d])
    | .ok _ => runMain code env [Payload.chdir d]
  rw [if_neg hd]

/-- C1: for every payload, cwd option and environment of backend outcomes,
run returns a record in which exactly one of output and error is non-null
(never both, never neither); run is a total function on all modelled
environments, including those where any internal step raises, so every
internal fault is converted to the record with null output and the message
as error rather than escaping. -/
theorem c1_run_result_exclusive (code : String) (cwd : Option String) (env : RunEnv) :
    (∃ s, (run code cwd env).1 = ⟨some s, none⟩) ∨
      ∃ s, (run code cwd env).1 = ⟨none, some s⟩ := by
  cases he : ensureKernel env with
  | error e =>
    rw [run_ensure_err code cwd env e he]
    exact Or.inr ⟨e, rfl⟩
  | ok u =>
    cases cwd with
    | none =>
      rw [run_none_ok code env u he]
      exact runMain_shape code env []
    | some d =>
      by_cases hd : d = ""
      · rw [run_some_empty code d env u he hd]
        exact runMain_shape code env []
      · rw [run_some_ok code d env u he hd]
        cases hc : execute_code env.cwdCall.msgId env.cwdCall.env with
        | error e => exact Or.inr ⟨e, rfl⟩
        | ok r => exact runMain_shape code env [Payload.chdir d]

/-- C2: the collected result of execute_code depends only on the messages
whose parent identifier equals the target: two streams with the same
target-tagged messages (that is, inserting or removing messages tagged with
a different parent identifier) give the same collected stdout parts, result
value and error, and the same returned record. -/
theorem c2_message_isolation (msgId : String) (sr : Except String ShellReply)
    (msgs1 msgs2 : List IopubMsg)
    (h : msgs1.filter (fun m => decide (m.parentId = some msgId)) =
         msgs2.filter (fun m => decide (m.parentId = some msgId))) :
    (∀ outs res err,
      drainLoop msgId msgs1 outs res err = drainLoop msgId msgs2 outs res err) ∧
      execute_code msgId ⟨sr, msgs1⟩ = execute_code msgId ⟨sr, msgs2⟩ := by
  have hd : ∀ outs res err,
      drainLoop msgId msgs1 outs res err = drainLoop msgId msgs2 outs res err := by
    intro outs res err
    rw [drainLoop_filter, h, ← drainLoop_filter]
  refine ⟨hd, ?_⟩
  cases sr with
  | error e => rw [execute_code_err_eq, execute_code_err_eq]
  | ok reply => rw [execute_code_ok_eq, execute_code_ok_eq, hd]

/-- C2 witness: an execution for target A interleaved with messages of a
second execution B collects exactly what it collects without them. -/
theorem c2_witness :
    execute_code "A" ⟨.ok ⟨"ok", []⟩,
        [⟨some "B", .stream "stdout" "spy"⟩, ⟨some "A", .stream "stdout" "hi"⟩,
         ⟨some "B", .errorMsg ["boom"]⟩, ⟨some "A", .statusMsg "idle"⟩]⟩ =
      execute_code "A" ⟨.ok ⟨"ok", []⟩,
        [⟨some "A", .stream "stdout" "hi"⟩, ⟨some "A", .statusMsg "idle"⟩]⟩ :=
  (c2_message_isolation "A" (.ok ⟨"ok", []⟩) _ _ (by decide)).2

/-- C4 counterexample: the shell reply reports status error (with an empty
traceback list), so an error message for the target is observed, yet
execute_code returns the output branch with the buffered stdout text and a
null error, contradicting the claim that any observed error yields a record
with null output and suppressed stdout. -/
theorem c4_counterexample :
    execute_code "m" ⟨.ok ⟨"error", []⟩,
        [⟨some "m", .stream "stdout" "hi"⟩, ⟨some "m", .statusMsg "idle"⟩]⟩ =
      .ok ⟨some "hi", none⟩ := by rfl

/-- C4 amended: when the last observed error for the target has a non-empty
cleaned traceback, execute_code returns null output with that cleaned trace
as the error, suppressing all buffered stdout text and result values. The
first part covers an iopub error message (observed after a prefix with no
terminal status for the target and followed by no further error for the
target); the second covers an error shell reply followed by a stream with
no error message for the target. -/
theorem c4_error_suppresses_output :
    (∀ (msgId : String) (reply : ShellReply) (pre : List IopubMsg)
        (tb : List String) (post : List IopubMsg),
      (∀ m ∈ pre, ¬(m.parentId = some msgId ∧ m.content = IopubContent.statusMsg "idle")) →
      (∀ m ∈ post, m.parentId = some msgId → isErrorMsg m.content = false) →
      cleanTraceback tb ≠ "" →
      execute_code msgId ⟨.ok reply, pre ++ ⟨some msgId, .errorMsg tb⟩ :: post⟩ =
        .ok ⟨none, some (cleanTraceback tb)⟩) ∧
    (∀ (msgId : String) (reply : ShellReply) (msgs : List IopubMsg),
      reply.status = "error" → cleanTraceback reply.traceback ≠ "" →
      (∀ m ∈ msgs, m.parentId = some msgId → isErrorMsg m.content = false) →
      execute_code msgId ⟨.ok reply, msgs⟩ =
        .ok ⟨none, some (cleanTraceback reply.traceback)⟩) := by
  constructor
  · intro msgId reply pre tb post hpre hpost htb
    obtain ⟨o, r, e, heq⟩ :=
      drainLoop_append_noIdle msgId pre hpre (⟨some msgId, .errorMsg tb⟩ :: post)
        [] none (shellErr reply)
    have hstep : drainLoop msgId (⟨some msgId, IopubContent.errorMsg tb⟩ :: post) o r e =
        drainLoop msgId post o r (some (cleanTraceback tb)) := by
      simp [drainLoop]
    have herr : (drainLoop msgId (pre ++ ⟨some msgId, IopubContent.errorMsg tb⟩ :: post)
        [] none (shellErr reply)).2.2 = some (cleanTraceback tb) := by
      rw [heq, hstep, drainLoop_err_of_noError msgId post hpost]
    rw [execute_code_ok_eq, herr]
    have htr : pyTruthy (some (cleanTraceback tb)) = true := by
      simp [pyTruthy, htb]
    rw [if_pos htr]
  · intro msgId reply msgs hst htb hmsgs
    have hse : shellErr reply = some (cleanTraceback reply.traceback) := by
      simp [shellErr, hst]
    have herr : (drainLoop msgId msgs [] none (shellErr reply)).2.2 =
        some (cleanTraceback reply.traceback) := by
      rw [hse, drainLoop_err_of_noError msgId msgs hmsgs]
    rw [execute_code_ok_eq, herr]
    have htr : pyTruthy (some (cleanTraceback reply.traceback)) = true := by
      simp [pyTruthy, htb]
    rw [if_pos htr]

/-- C4 witness: an iopub error with a non-empty trace, after a foreign idle
message and before the terminal idle of the target, suppresses output. -/
theorem c4_witness :
    execute_code "m" ⟨.ok ⟨"ok", []⟩,
        [⟨some "x", .statusMsg "idle"⟩] ++ ⟨some "m", .errorMsg ["Boom"]⟩ ::
          [⟨some "m", .statusMsg "idle"⟩]⟩ =
      .ok ⟨none, some (cleanTraceback ["Boom"])⟩ :=
  c4_error_suppresses_output.1 "m" ⟨"ok", []⟩ [⟨some "x", .statusMsg "idle"⟩]
    ["Boom"] [⟨some "m", .statusMsg "idle"⟩] (by decide) (by decide) (by decide)

/-- C5 counterexample: a persisted pid record whose content is not a valid
integer makes the liveness probe raise a ValueError instead of returning a
boolean, contradicting the claim that the probe never raises on records
with arbitrary content. -/
theorem c5_counterexample :
    is_kernel_alive (fun _ => false) ⟨some "not-a-pid", none⟩ =
      .error "invalid literal for int() with base 10" := rfl

/-- C5 amended: the probe returns a boolean and does not raise when the
record is absent (absence yields false) or when its content parses as an
integer, in which case it returns the verdict of the platform liveness
primitive (false for a dead process); only unparsable content raises. -/
theorem c5_probe_no_raise (alive : Int → Bool) (st : Store) :
    (st.pidFile = none → is_kernel_alive alive st = .ok false) ∧
    (∀ c pid, st.pidFile = some c → pyInt c = some pid →
      is_kernel_alive alive st = .ok (alive pid)) := by
  constructor
  · intro h
    simp [is_kernel_alive, h]
  · intro c pid hc hp
    simp [is_kernel_alive, hc, hp]

/-- C5 witness: an absent record yields false, and a numeric record naming a
dead process yields false, both without raising. -/
theorem c5_witness :
    is_kernel_alive (fun _ => false) ⟨none, none⟩ = .ok false ∧
    is_kernel_alive (fun _ => false) ⟨some " 4242 ", none⟩ = .ok false :=
  ⟨(c5_probe_no_raise (fun _ => false) ⟨none, none⟩).1 rfl,
   (c5_probe_no_raise (fun _ => false) ⟨some " 4242 ", none⟩).2 " 4242 " 4242 rfl (by decide)⟩

/-- Helper for C6: the polling loop raises the startup timeout when no
attempt within the fuel bound is ready. -/
theorem startPoll_timeout (env : Nat → Attempt) :
    ∀ (fuel i : Nat), (∀ j, j < fuel → env (i + j) ≠ Attempt.ready) →
      startPoll env i fuel = .error "Kernel failed to start within 5 seconds" := by
  intro fuel
  induction fuel with
  | zero => intro i _; rfl
  | succ n ih =>
    intro i h
    have h0 : env i ≠ Attempt.ready := by
      have := h 0 (Nat.succ_pos n)
      simpa using this
    have hrest : ∀ j, j < n → env (i + 1 + j) ≠ Attempt.ready := by
      intro j hj
      have := h (j + 1) (by omega)
      have harith : i + (j + 1) = i + 1 + j := by omega
      rwa [harith] at this
    cases he : env i with
    | ready => exact absurd he h0
    | noFile =>
      simp only [startPoll, he]
      exact ih (i + 1) hrest
    | fileButFail =>
      simp only [startPoll, he]
      exact ih (i + 1) hrest

/-- C6: when the backend does not become ready (connection file present and
handshake succeeding) in any of the fifty polling attempts, start_kernel
fails with the startup timeout error instead of returning a handle. -/
theorem c6_startup_timeout (env : Nat → Attempt)
    (h : ∀ i, i < 50 → env i ≠ Attempt.ready) :
    start_kernel env = .error "Kernel failed to start within 5 seconds" :=
  startPoll_timeout env 50 0 (fun j hj => by simpa using h j hj)

/-- C6 witness: a backend whose connection file never appears times out. -/
theorem c6_witness :
    start_kernel (fun _ => Attempt.noFile) =
      .error "Kernel failed to start within 5 seconds" :=
  c6_startup_timeout (fun _ => Attempt.noFile) (by decide)

/-- C8 counterexample: the directory-change submission raises (its shell
read times out) and that failure is surfaced as the overall result of run,
although the main payload on its own would have produced the output record
with value forty-two; so a failure of the directory-change submission is
not always invisible in the overall result. -/
theorem c8_counterexample :
    (run "x" (some "/tmp")
        ⟨.ok true, true, .ok (), .ok (), .ok (),
         ⟨"c", ⟨.error "shell timeout during chdir", []⟩⟩,
         ⟨"m", ⟨.ok ⟨"ok", []⟩,
           [⟨some "m", .executeResult (some "42")⟩, ⟨some "m", .statusMsg "idle"⟩]⟩⟩⟩).1 =
      ⟨none, some "shell timeout during chdir"⟩ ∧
    execute_code "m" ⟨.ok ⟨"ok", []⟩,
        [⟨some "m", .executeResult (some "42")⟩, ⟨some "m", .statusMsg "idle"⟩]⟩ =
      .ok ⟨some "42", none⟩ := ⟨rfl, rfl⟩

/-- C8 amended: with a truthy cwd override, whenever the main payload is
submitted at all, the directory-change payload was submitted first; and the
result record of the directory-change execution is discarded: whenever that
execution completes without raising, the record run returns does not depend
on it (only an exception escaping the directory change is surfaced, by the
outer handler). -/
theorem c8_cwd_payload :
    (∀ (code d : String) (env : RunEnv), d ≠ "" →
      Payload.user code ∈ (run code (some d) env).2 →
      (run code (some d) env).2 = [Payload.chdir d, Payload.user code]) ∧
    (∀ (code d : String) (env1 env2 : RunEnv) (r1 r2 : ExecResult),
      ensureKernel env1 = ensureKernel env2 →
      env1.mainCall = env2.mainCall →
      execute_code env1.cwdCall.msgId env1.cwdCall.env = .ok r1 →
      execute_code env2.cwdCall.msgId env2.cwdCall.env = .ok r2 →
      (run code (some d) env1).1 = (run code (some d) env2).1) := by
  constructor
  · intro code d env hd hmem
    cases he : ensureKernel env with
    | error e =>
      rw [run_ensure_err code (some d) env e he] at hmem
      simp at hmem
    | ok u =>
      rw [run_some_ok code d env u he hd] at hmem ⊢
      cases hc : execute_code env.cwdCall.msgId env.cwdCall.env with
      | error e =>
        rw [hc] at hmem
        have hmem2 : Payload.user code ∈ [Payload.chdir d] := hmem
        simp at hmem2
      | ok r =>
        have h2 : (runMain code env [Payload.chdir d]).2 =
            [Payload.chdir d, Payload.user code] := by
          unfold runMain
          cases execute_code env.mainCall.msgId env.mainCall.env <;> rfl
        exact h2
  · intro code d env1 env2 r1 r2 hens hmain hc1 hc2
    cases he : ensureKernel env1 with
    | error e =>
      have he2 : ensureKernel env2 = .error e := by rw [← hens, he]
      rw [run_ensure_err code (some d) env1 e he,
        run_ensure_err code (some d) env2 e he2]
    | ok u =>
      have he2 : ensureKernel env2 = .ok u := by rw [← hens, he]
      have hrm : ∀ pre : List Payload,
          (runMain code env1 pre).1 = (runMain code env2 pre).1 := by
        intro pre
        unfold runMain
        rw [hmain]
      by_cases hd : d = ""
      · rw [run_some_empty code d env1 u he hd, run_some_empty code d env2 u he2 hd]
        exact hrm []
      · rw [run_some_ok code d env1 u he hd, run_some_ok code d env2 u he2 hd,
          hc1, hc2]
        exact hrm [Payload.chdir d]

/-- C8 witness: on a fresh backend with a working-directory override, the
directory-change payload is submitted first and the main payload second;
and two environments differing only in the directory-change messages yield
the same record. -/
theorem c8_witness :
    (run "x" (some "/w")
        ⟨.ok false, false, .ok (), .ok (), .ok (),
         ⟨"c", ⟨.ok ⟨"ok", []⟩, [⟨some "c", .statusMsg "idle"⟩]⟩⟩,
         ⟨"m", ⟨.ok ⟨"ok", []⟩, [⟨some "m", .statusMsg "idle"⟩]⟩⟩⟩).2 =
      [Payload.chdir "/w", Payload.user "x"] ∧
    (run "x" (some "/w")
        ⟨.ok false, false, .ok (), .ok (), .ok (),
         ⟨"c", ⟨.ok ⟨"ok", []⟩, [⟨some "c", .statusMsg "idle"⟩]⟩⟩,
         ⟨"m", ⟨.ok ⟨"ok", []⟩, [⟨some "m", .statusMsg "idle"⟩]⟩⟩⟩).1 =
      (run "x" (some "/w")
        ⟨.ok false, false, .ok (), .ok (), .ok (),
         ⟨"c", ⟨.ok ⟨"error", ["NoSuchDir"]⟩, [⟨some "c", .errorMsg ["NoSuchDir"]⟩,
           ⟨some "c", .statusMsg "idle"⟩]⟩⟩,
         ⟨"m", ⟨.ok ⟨"ok", []⟩, [⟨some "m", .statusMsg "idle"⟩]⟩⟩⟩).1 :=
  ⟨c8_cwd_payload.1 "x" "/w" _ (by decide) (by decide),
   c8_cwd_payload.2 "x" "/w" _ _ ⟨some "(no output)", none⟩ ⟨none, some "NoSuchDir"⟩
     rfl rfl rfl rfl⟩

/-- C9 counterexample: with the pid record absent but a connection artifact
present, stop_kernel returns at once and the connection artifact is still
present afterwards, contradicting the claim that after such a call both
artifacts are absent. -/
theorem c9_counterexample :
    stop_kernel ⟨none, some "conn"⟩ = .ok ⟨none, some "conn"⟩ ∧
    (⟨none, some "conn"⟩ : Store).connectionFile ≠ none := ⟨rfl, by decide⟩

/-- C9 amended: when the process-id record is absent, stop_kernel returns
without raising and leaves the store exactly unchanged; in particular when
no artifacts were persisted none exist afterwards, while a stray connection
artifact without a pid record is left in place. -/
theorem c9_stop_absent_noop (st : Store) (h : st.pidFile = none) :
    stop_kernel st = .ok st := by
  simp [stop_kernel, h]

/-- C9 witness: with no artifacts persisted, stop neither raises nor leaves
artifacts. -/
theorem c9_witness : stop_kernel ⟨none, none⟩ = .ok ⟨none, none⟩ :=
  c9_stop_absent_noop ⟨none, none⟩ rfl

/-- C10: when the shell reply reports status error with an empty traceback
list and every streamed error message for the target carries an empty
cleaned traceback, execute_code classifies the execution as successful: it
returns the output branch with a null error, because the empty cleaned
trace is treated as the absence of an error. -/
theorem c10_empty_trace_success (msgId : String) (msgs : List IopubMsg)
    (h : ∀ m ∈ msgs, m.parentId = some msgId → isErrorMsg m.content = true →
      errClean m.content = some "") :
    execute_code msgId ⟨.ok ⟨"error", []⟩, msgs⟩ =
      .ok ⟨some (buildOutput (drainLoop msgId msgs [] none (some "")).1
                  (drainLoop msgId msgs [] none (some "")).2.1), none⟩ := by
  have hse : shellErr ⟨"error", []⟩ = some "" := rfl
  rw [execute_code_ok_eq, hse]
  have hu : pyTruthy (drainLoop msgId msgs [] none (some "")).2.2 = false :=
    drainLoop_err_untruthy msgId msgs h [] none (some "") (by decide)
  rw [if_neg (by simp [hu])]

/-- C10 witness: an error shell reply with an empty traceback followed only
by an empty-trace iopub error still yields the output branch. -/
theorem c10_witness :
    execute_code "m" ⟨.ok ⟨"error", []⟩,
        [⟨some "m", .errorMsg []⟩, ⟨some "m", .statusMsg "idle"⟩]⟩ =
      .ok ⟨some (buildOutput
            (drainLoop "m" [⟨some "m", .errorMsg []⟩, ⟨some "m", .statusMsg "idle"⟩]
              [] none (some "")).1
            (drainLoop "m" [⟨some "m", .errorMsg []⟩, ⟨some "m", .statusMsg "idle"⟩]
              [] none (some "")).2.1), none⟩ :=
  c10_empty_trace_success "m" _ (by decide)

end KernelExec

namespace PiRPC

/-- Soundness of the wait loop: when it returns an event, that event is a
response carrying exactly the awaited identifier. -/
theorem waitLoop_sound (reqId : String) :
    ∀ (lines : List RpcEvent) (e : RpcEvent),
      (waitLoop reqId lines).1 = some e →
      e.type = some "response" ∧ e.id = some reqId := by
  intro lines
  induction lines with
  | nil => intro e h; simp [waitLoop] at h
  | cons x rest2 ih =>
    intro e h
    simp only [waitLoop] at h
    by_cases h1 : x.type = some "response"
    · by_cases h2 : x.id = some reqId
      · simp [h1, h2] at h
        subst h
        exact ⟨h1, h2⟩
      · simp [h1, h2] at h
        exact ih e h
    · simp [h1] at h
      exact ih e h

/-- Skipping in the wait loop: every line before the first response carrying
the awaited identifier is discarded, whether it is an event or a response to
a different identifier, and the matching response itself is returned. -/
theorem waitLoop_skip (reqId : String) :
    ∀ (pre : List RpcEvent) (e : RpcEvent) (post : List RpcEvent),
      (∀ x ∈ pre, ¬(x.type = some "response" ∧ x.id = some reqId)) →
      e.type = some "response" → e.id = some reqId →
      waitLoop reqId (pre ++ e :: post) = (some e, post) := by
  intro pre
  induction pre with
  | nil =>
    intro e post _ he1 he2
    simp [waitLoop, he1, he2]
  | cons x pre ih =>
    intro e post hpre he1 he2
    have hx := hpre x (by simp)
    have hrest : ∀ y ∈ pre, ¬(y.type = some "response" ∧ y.id = some reqId) :=
      fun y hy => hpre y (by simp [hy])
    by_cases h1 : x.type = some "response"
    · have h2 : ¬ x.id = some reqId := fun h2 => hx ⟨h1, h2⟩
      simp only [List.cons_append, waitLoop]
      simp [h1, h2]
      exact ih e post hrest he1 he2
    · simp only [List.cons_append, waitLoop]
      simp [h1]
      exact ih e post hrest he1 he2

/-- C3 counterexample: the session has sent two requests back to back, so
the next identifiers are one and two, and the two responses sit in the
stream in reversed order. The first awaiting call correctly returns the
response with identifier one, but in doing so it consumes and discards the
response with identifier two, so the second awaiting call returns none
instead of the response whose identifier equals its own request
identifier. -/
theorem c3_counterexample :
    (send_and_wait ⟨0, [⟨some "response", some "2"⟩, ⟨some "response", some "1"⟩]⟩).1 =
      some ⟨some "response", some "1"⟩ ∧
    (send_and_wait (send_and_wait ⟨0,
        [⟨some "response", some "2"⟩, ⟨some "response", some "1"⟩]⟩).2).1 = none :=
  ⟨by decide, by decide⟩

/-- C3 amended: matching is by identifier equality and never by arrival
order: an awaiting call only ever returns a response carrying exactly the
identifier of its own request, and every earlier line, including a response
addressed to a different identifier, is skipped (and thereby discarded); a
call whose response was already consumed returns the empty result when the
stream closes. -/
theorem c3_correlation_by_identifier :
    (∀ (s : RpcState) (e : RpcEvent),
      (send_and_wait s).1 = some e →
      e.type = some "response" ∧ e.id = some (toString (s.requestId + 1))) ∧
    (∀ (reqId : String) (pre : List RpcEvent) (e : RpcEvent) (post : List RpcEvent),
      (∀ x ∈ pre, ¬(x.type = some "response" ∧ x.id = some reqId)) →
      e.type = some "response" → e.id = some reqId →
      waitLoop reqId (pre ++ e :: post) = (some e, post)) := by
  constructor
  · intro s e h
    have h2 : (waitLoop (toString (s.requestId + 1)) s.stdoutLines).1 = some e := h
    exact waitLoop_sound _ s.stdoutLines e h2
  · exact waitLoop_skip

/-- C3 witness: awaiting identifier one skips a response addressed to
identifier two and returns the response addressed to one; and any response
returned by an awaiting call carries the identifier of its own request. -/
theorem c3_witness :
    waitLoop "1" ([⟨some "response", some "2"⟩] ++ ⟨some "response", some "1"⟩ :: []) =
      (some ⟨some "response", some "1"⟩, ([] : List RpcEvent)) ∧
    ((⟨some "response", some "1"⟩ : RpcEvent).type = some "response" ∧
      (⟨some "response", some "1"⟩ : RpcEvent).id =
        some (toString ((⟨0, [⟨some "response", some "1"⟩]⟩ : RpcState).requestId + 1))) :=
  ⟨c3_correlation_by_identifier.2 "1" [⟨some "response", some "2"⟩]
      ⟨some "response", some "1"⟩ [] (by decide) (by decide) (by decide),
   c3_correlation_by_identifier.1 ⟨0, [⟨some "response", some "1"⟩]⟩
      ⟨some "response", some "1"⟩ (by decide)⟩

/-- The subprocess block of close is idempotent: after one close the stdin
stream is closing and the return code is set, so a second pass changes
nothing. -/
theorem closeProc_idem (cenv : CloseEnv) (pOpt : Option Subproc) :
    closeProc cenv (closeProc cenv pOpt) = closeProc cenv pOpt := by
  cases pOpt with
  | none => rfl
  | some p =>
    obtain ⟨sc, rc, tc, kc⟩ := p
    cases sc <;> cases rc <;> cases hg : cenv.graceExit <;> simp [closeProc, hg]

/-- C7 counterexample: a session configured with a log sink (and, for
simplicity, no live subprocess): the first close writes the session-end
entry and closes the log file object, which stays referenced; the second
close attempts to write the session-end entry again to the closed file and
raises the closed-file ValueError, so close is not idempotent for sessions
with a log sink. -/
theorem c7_counterexample :
    close ⟨some 0, -9⟩ ⟨some ⟨false, []⟩, none⟩ =
      .ok ⟨some ⟨true, ["SESSION_END"]⟩, none⟩ ∧
    close ⟨some 0, -9⟩ ⟨some ⟨true, ["SESSION_END"]⟩, none⟩ =
      .error "I/O operation on closed file" := ⟨rfl, rfl⟩

/-- C7 amended: close is idempotent for every session without a configured
log sink: a second call after a completed first call raises nothing and
returns the state unchanged (stdin already closing, return code already
set); for a session with a log sink, a second call after a completed first
call raises the closed-file error from writing the session-end entry. -/
theorem c7_close_idempotent_no_log :
    (∀ (cenv : CloseEnv) (s s2 : SessionState), s.logFile = none →
      close cenv s = .ok s2 → close cenv s2 = .ok s2) ∧
    (∀ (cenv : CloseEnv) (s : SessionState) (lf : LogFile) (s2 : SessionState),
      s.logFile = some lf → close cenv s = .ok s2 →
      close cenv s2 = .error "I/O operation on closed file") := by
  constructor
  · intro cenv s s2 hlf hc
    obtain ⟨slf, sproc⟩ := s
    have hlf2 : slf = none := hlf
    subst hlf2
    have hc2 : Except.ok (SessionState.mk none (closeProc cenv sproc)) = Except.ok s2 := hc
    have h3 := Except.ok.inj hc2
    subst h3
    show Except.ok (SessionState.mk none (closeProc cenv (closeProc cenv sproc))) = _
    rw [closeProc_idem]
  · intro cenv s lf s2 hlf hc
    obtain ⟨slf, sproc⟩ := s
    have hlf2 : slf = some lf := hlf
    subst hlf2
    obtain ⟨cl, en⟩ := lf
    cases cl with
    | true =>
      have hce : close cenv ⟨some ⟨true, en⟩, sproc⟩ =
          .error "I/O operation on closed file" := rfl
      rw [hce] at hc
      cases hc
    | false =>
      have hc2 : Except.ok (SessionState.mk
          (some (LogFile.mk true (en ++ ["SESSION_END"])))
          (closeProc cenv sproc)) = Except.ok s2 := hc
      have h3 := Except.ok.inj hc2
      subst h3
      rfl

/-- C7 witness: a first close of a log-less session with a running
subprocess terminates it within the grace window; a second close returns
the same state unchanged; and a logged session raises on its second
close. -/
theorem c7_witness :
    close ⟨some 0, -9⟩ ⟨none, some ⟨false, none, 0, 0⟩⟩ =
      .ok ⟨none, some ⟨true, some 0, 1, 0⟩⟩ ∧
    close ⟨some 0, -9⟩ ⟨none, some ⟨true, some 0, 1, 0⟩⟩ =
      .ok ⟨none, some ⟨true, some 0, 1, 0⟩⟩ ∧
    close ⟨some 0, -9⟩ ⟨some ⟨true, ["SESSION_END"]⟩, none⟩ =
      .error "I/O operation on closed file" :=
  ⟨rfl,
   c7_close_idempotent_no_log.1 ⟨some 0, -9⟩ ⟨none, some ⟨false, none, 0, 0⟩⟩
     ⟨none, some ⟨true, some 0, 1, 0⟩⟩ rfl rfl,
   c7_close_idempotent_no_log.2 ⟨some 0, -9⟩ ⟨some ⟨false, []⟩, none⟩ ⟨false, []⟩
     ⟨some ⟨true, ["SESSION_END"]⟩, none⟩ rfl rfl⟩

end PiRPC
